import Mathlib

/-!
Verification of the Script Timer repository (script_timer.py — the PyQt5 GUI
version — and simple_script_timer.py — the console version).

Shallow embedding conventions:
* Wall-clock times of day are milliseconds since midnight (`Nat`) for the GUI
  (Qt works in msecs); the console version computes its delay in seconds, so
  `SimpleScriptTimer.start_at_delay` is in seconds.
* OS effects are oracles passed explicitly: `spawn : String → Except String Nat`
  models `subprocess.Popen` (ok = pid, error = raised exception message),
  `exited : Nat → Bool` models `Popen.poll() is not None`, and
  `termFails : Nat → Bool` models whether `Popen.terminate()` raises.
* Qt semantics embedded: `QTimer.start(i)` arms a REPEATING timer; the signal
  `timer.timeout` is connected in `__init__` to `check_processes` and never
  reconnected; `QTimer.singleShot(msec, cb)` is a static method that arms an
  anonymous independent one-shot timer (not owned by the instance it is called
  on, hence not affected by that instance's `stop()`); Qt refuses to arm a
  single-shot timer with a negative timeout.
* Observable effects are recorded in an `events` log (process launches, launch
  errors, terminations, swallowed termination failures, warning dialogs);
  console `print` output is recorded in an `output` list.
-/

namespace ScriptTimerSpec

/-- Observable events of the scheduler: process launches, launch failures,
process terminations, termination failures that were swallowed, and
"no script selected" warning dialogs. -/
inductive Event where
  | launch (pid : Nat)
  | launchError
  | terminated (pid : Nat)
  | termFailSwallowed (pid : Nat)
  | warned
deriving DecidableEq, Repr

/-- Number of process launches recorded in an event log. -/
def launchCount (evs : List Event) : Nat :=
  (evs.filter (fun e => match e with | .launch _ => true | _ => false)).length

/-- Number of process terminations recorded in an event log. -/
def terminateCount (evs : List Event) : Nat :=
  (evs.filter (fun e => match e with | .terminated _ => true | _ => false)).length

/-- `os.path.basename`, as used in the status strings. -/
def basename (p : String) : String :=
  (p.splitOn "/").getLastD ""

/-- State of one `QTimer` member object: whether it is running and its
repeat interval in milliseconds. -/
structure QTimerState where
  active : Bool
  interval : Nat
deriving DecidableEq, Repr

namespace ScriptTimer

/-- State of the GUI `ScriptTimer` window (script_timer.py), presentation
widgets elided. `scheduleConnected` records whether `schedule_timer.timeout`
has been connected to `run_scheduled_script` (done only in the daily branch of
`start_schedule_timer`). `pendingSingleShots` holds the remaining delays (ms)
of anonymous single-shot timers armed through the static `QTimer.singleShot`;
their callback is `run_scheduled_script`. -/
structure State where
  script_path : String
  timer : QTimerState
  schedule_timer : QTimerState
  scheduleConnected : Bool
  pendingSingleShots : List Nat
  running_processes : List Nat
  status : String
  events : List Event
deriving DecidableEq, Repr

/-- `ScriptTimer.__init__`: empty path, both timers idle, no processes. -/
def init : State :=
  { script_path := ""
    timer := { active := false, interval := 0 }
    schedule_timer := { active := false, interval := 0 }
    scheduleConnected := false
    pendingSingleShots := []
    running_processes := []
    status := "Ready"
    events := [] }

/-- `ScriptTimer.select_script`: the file dialog returns `file_name` (empty
string on cancel); a non-empty result is stored as the script path. -/
def select_script (st : State) (file_name : String) : State :=
  if file_name = "" then st
  else { st with script_path := file_name
                 status := "Script selected: " ++ basename file_name }

/-- `ScriptTimer.run_script`: `subprocess.Popen([self.script_path])` inside
try/except; on success the handle is appended to `running_processes`, on
exception the status reports the error and nothing else changes. -/
def run_script (spawn : String → Except String Nat) (st : State) : State :=
  match spawn st.script_path with
  | .ok pid =>
      { st with running_processes := st.running_processes ++ [pid]
                status := "Script started: " ++ basename st.script_path
                events := st.events ++ [.launch pid] }
  | .error e =>
      { st with status := "Error running script: " ++ e
                events := st.events ++ [.launchError] }

/-- `ScriptTimer.run_scheduled_script`: identical to `run_script` except for
the status strings; this is the callback of the schedule single-shot timer. -/
def run_scheduled_script (spawn : String → Except String Nat) (st : State) : State :=
  match spawn st.script_path with
  | .ok pid =>
      { st with running_processes := st.running_processes ++ [pid]
                status := "Script scheduled started: " ++ basename st.script_path
                events := st.events ++ [.launch pid] }
  | .error e =>
      { st with status := "Error running scheduled script: " ++ e
                events := st.events ++ [.launchError] }

/-- `ScriptTimer.check_processes`: the handler connected to `timer.timeout`
in `__init__`. It removes processes whose `poll()` is not `None` and updates
the status; it terminates nothing and launches nothing. -/
def check_processes (exited : Nat → Bool) (st : State) : State :=
  { st with running_processes := st.running_processes.filter (fun p => !(exited p))
            status := if st.running_processes.any exited
                      then "Script completed execution" else st.status }

/-- `ScriptTimer.start_close_timer`: warns if no script is selected;
otherwise starts the member `timer` (a repeating timer whose timeout is
connected to `check_processes`) with interval `minutes * 60000` ms, runs the
script once, and sets the status. -/
def start_close_timer (spawn : String → Except String Nat) (st : State)
    (minutes : Nat) : State :=
  if st.script_path = "" then { st with events := st.events ++ [.warned] }
  else
    let st1 := { st with timer := { active := true, interval := minutes * 60000 } }
    let st2 := run_script spawn st1
    { st2 with status := "Running script for " ++ toString minutes ++ " minutes" }

/-- `ScriptTimer.start_repeat_timer`: warns if no script is selected;
otherwise starts the same member `timer` (timeout still connected to
`check_processes`) with interval `minutes * 60000` ms, runs the script once,
and sets the status. -/
def start_repeat_timer (spawn : String → Except String Nat) (st : State)
    (minutes : Nat) : State :=
  if st.script_path = "" then { st with events := st.events ++ [.warned] }
  else
    let st1 := { st with timer := { active := true, interval := minutes * 60000 } }
    let st2 := run_script spawn st1
    { st2 with status := "Script will repeat every " ++ toString minutes ++ " minutes" }

/-- `QTime.msecsTo`: milliseconds from time `a` to time `b`, negative when
`b` is earlier in the day than `a`. -/
def qtimeMsecsTo (a b : Nat) : Int := (b : Int) - (a : Int)

/-- The `time_diff` computation of `ScriptTimer.start_schedule_timer`:
`scheduled` and `now` are msecs since midnight. When the scheduled time is
not after `now`, the code computes
`today.msecsTo(QTime(0,0,0)) + scheduled_time.msecsSinceStartOfDay()`,
where `QTime(0,0,0)` is midnight TODAY, so `today.msecsTo(...)` is
`-now`, not `86400000 - now`. -/
def schedule_time_diff (scheduled now : Nat) : Int :=
  if scheduled ≤ now then qtimeMsecsTo now 0 + (scheduled : Int)
  else qtimeMsecsTo now scheduled

/-- `ScriptTimer.start_schedule_timer`: warns if no script is selected;
otherwise computes `time_diff` and calls the STATIC `QTimer.singleShot`
(through the `schedule_timer` instance, which does not tie the new timer to
that instance): a non-negative delay arms an anonymous one-shot timer with
callback `run_scheduled_script`; Qt refuses a negative delay. When the daily
checkbox is checked, `schedule_timer.timeout` is connected to
`run_scheduled_script` and `schedule_timer` is started with a 24-hour
interval. -/
def start_schedule_timer (st : State) (scheduled now : Nat) (daily : Bool) : State :=
  if st.script_path = "" then { st with events := st.events ++ [.warned] }
  else
    let time_diff := schedule_time_diff scheduled now
    let st1 := if 0 ≤ time_diff
      then { st with pendingSingleShots := st.pendingSingleShots ++ [time_diff.toNat] }
      else st
    if daily then
      { st1 with scheduleConnected := true
                 schedule_timer := { active := true, interval := 24 * 60 * 60 * 1000 }
                 status := "Script scheduled to run daily" }
    else { st1 with status := "Script scheduled to run once" }

/-- `ScriptTimer.stop_all`: calls `terminate()` on every tracked process with
the exception swallowed by `except: pass`, clears the tracked list, and stops
the two member timers. The anonymous single-shot timers armed by the static
`QTimer.singleShot` are not owned by `schedule_timer`, so they are left
untouched. -/
def stop_all (termFails : Nat → Bool) (st : State) : State :=
  { st with events := st.events ++ st.running_processes.map
              (fun p => if termFails p then Event.termFailSwallowed p else Event.terminated p)
            running_processes := []
            timer := { st.timer with active := false }
            schedule_timer := { st.schedule_timer with active := false }
            status := "All timers stopped" }

/-- One firing of the member `timer`: if it is running, its timeout signal
invokes `check_processes` (the only handler ever connected to it). -/
def fireTimer (exited : Nat → Bool) (st : State) : State :=
  if st.timer.active then check_processes exited st else st

/-- `n` successive firings of the member `timer`. -/
def fireTimerN (exited : Nat → Bool) : Nat → State → State
  | 0, st => st
  | n + 1, st => fireTimerN exited n (fireTimer exited st)

/-- The earliest armed anonymous single-shot timer fires: its callback is
`run_scheduled_script`. No pending timer means nothing happens. -/
def fireSingleShot (spawn : String → Except String Nat) (st : State) : State :=
  match st.pendingSingleShots with
  | [] => st
  | _ :: rest => run_scheduled_script spawn { st with pendingSingleShots := rest }

end ScriptTimer

/-- Python `str.strip()` with no argument: removes whitespace from both ends.
Embedded structurally over the character list so that proofs can evaluate
it. -/
def pyStrip (s : String) : String :=
  ⟨((s.data.dropWhile Char.isWhitespace).reverse.dropWhile Char.isWhitespace).reverse⟩

/-- Python `str.lower()`, embedded structurally over the character list. -/
def pyLower (s : String) : String :=
  ⟨s.data.map Char.toLower⟩

namespace SimpleScriptTimer

/-- State of the console `SimpleScriptTimer` (simple_script_timer.py).
`timers` records the close-after timers armed so far as pairs
(delay in seconds, pid of the process the `stop_script` callback closes
over); `output` records the `print` output. -/
structure State where
  script_path : String
  running_processes : List Nat
  timers : List (Nat × Nat)
  events : List Event
  output : List String
deriving DecidableEq, Repr

/-- `SimpleScriptTimer.__init__`. -/
def init : State :=
  { script_path := "", running_processes := [], timers := []
    events := [], output := [] }

/-- `SimpleScriptTimer.select_script`: reads a line, strips it; the literal
input `cancel` (case-insensitively) aborts selection; a nonexistent path
prints a not-found error and leaves everything unchanged; otherwise the path
is stored. Returns the boolean the method returns. `pathExists` models
`os.path.exists`. -/
def select_script (pathExists : String → Bool) (st : State) (input : String) :
    State × Bool :=
  let script_path := pyStrip input
  if pyLower script_path = "cancel" then (st, false)
  else if !(pathExists script_path) then
    ({ st with output := st.output ++ ["Error: File not found!"] }, false)
  else
    ({ st with script_path := script_path
               output := st.output ++ ["Selected script: " ++ basename script_path] },
     true)

/-- `SimpleScriptTimer.run_script`: `subprocess.Popen` in try/except; on
success appends the handle and returns it, on exception prints the error and
returns `None`. -/
def run_script (spawn : String → Except String Nat) (st : State) :
    State × Option Nat :=
  match spawn st.script_path with
  | .ok pid =>
      ({ st with running_processes := st.running_processes ++ [pid]
                 events := st.events ++ [.launch pid]
                 output := st.output ++ ["Script started: " ++ basename st.script_path] },
       some pid)
  | .error e =>
      ({ st with events := st.events ++ [.launchError]
                 output := st.output ++ ["Error running script: " ++ e] },
       none)

/-- The `stop_script` callback armed by `close_after_time`: terminates the
process it closes over, swallowing a failing `terminate()` with
`except: pass`. -/
def stop_script (termFails : Nat → Bool) (pid : Nat) (st : State) : State :=
  if termFails pid then { st with events := st.events ++ [.termFailSwallowed pid] }
  else
    { st with events := st.events ++ [.terminated pid]
              output := st.output ++ ["Script closed after specified time."] }

/-- `SimpleScriptTimer.close_after_time` up to the blocking `process.wait()`:
refuses when no script is selected; otherwise runs the script once and, on a
successful launch, arms a one-shot `threading.Timer` of `minutes * 60`
seconds whose callback is `stop_script` on that process. -/
def close_after_time (spawn : String → Except String Nat) (st : State)
    (minutes : Nat) : State :=
  if st.script_path = "" then { st with output := st.output ++ ["No script selected!"] }
  else
    let r := run_script spawn st
    match r.2 with
    | none => r.1
    | some pid => { r.1 with timers := r.1.timers ++ [(minutes * 60, pid)] }

/-- The delay computed by `SimpleScriptTimer.start_at_time`, in seconds:
`target_time` is today at the requested time of day (`scheduled` seconds
since midnight, whole minutes so seconds and microseconds are zero); when it
is not after `now` (seconds since midnight) a whole day is added; the delay
is `(target_time - datetime.now()).total_seconds()`. -/
def start_at_delay (scheduled now : Nat) : Nat :=
  if scheduled ≤ now then scheduled + 24 * 60 * 60 - now
  else scheduled - now

end SimpleScriptTimer

/-- Oracle for scenarios where `subprocess.Popen` always succeeds with pid 1. -/
def spawnOk : String → Except String Nat := fun _ => .ok 1

/-- Oracle for scenarios where `subprocess.Popen` always raises. -/
def spawnFail : String → Except String Nat := fun _ => .error "No such file or directory"

/-- Oracle for scenarios where every path exists. -/
def allExists : String → Bool := fun _ => true

/-- Oracle for scenarios where `terminate()` never raises. -/
def noTermFail : Nat → Bool := fun _ => false

/-- Oracle for scenarios where no tracked process has exited yet. -/
def noneExited : Nat → Bool := fun _ => false

/-- GUI state after selecting `/bin/true` and pressing Start Close Timer with
a 10 minute duration. -/
def c1Gui : ScriptTimer.State :=
  ScriptTimer.start_close_timer spawnOk
    (ScriptTimer.select_script ScriptTimer.init "/bin/true") 10

/-- Console state after selecting `/bin/true` and invoking close-after-time
with a 10 minute duration. -/
def c1Console : SimpleScriptTimer.State :=
  SimpleScriptTimer.close_after_time spawnOk
    (SimpleScriptTimer.select_script allExists SimpleScriptTimer.init "/bin/true").1 10

/-- GUI state after selecting `/bin/true`, scheduling a one-shot run for
13:00 while it is 12:00, and then pressing Stop All before the timer fires. -/
def c2Stopped : ScriptTimer.State :=
  ScriptTimer.stop_all noTermFail
    (ScriptTimer.start_schedule_timer
      (ScriptTimer.select_script ScriptTimer.init "/bin/true") 46800000 43200000 false)

/-- GUI state after selecting `/bin/true` and pressing Start Repeat Timer
with a 30 minute interval. -/
def c4Gui : ScriptTimer.State :=
  ScriptTimer.start_repeat_timer spawnOk
    (ScriptTimer.select_script ScriptTimer.init "/bin/true") 30

/-- GUI state after selecting `/bin/sh`, scheduling a one-shot run for 14:00
while it is 12:00, and then pressing Stop All before the timer fires. -/
def c7Stopped : ScriptTimer.State :=
  ScriptTimer.stop_all noTermFail
    (ScriptTimer.start_schedule_timer
      (ScriptTimer.select_script ScriptTimer.init "/bin/sh") 50400000 43200000 false)

/-- GUI state after selecting `/bin/sh`, pressing Start Close Timer with a 10
minute duration, and then also scheduling a one-shot run for 18:00 while it
is 12:00: both policies end up armed at once. -/
def c9Both : ScriptTimer.State :=
  ScriptTimer.start_schedule_timer
    (ScriptTimer.start_close_timer spawnOk
      (ScriptTimer.select_script ScriptTimer.init "/bin/sh") 10) 64800000 43200000 false

namespace ScriptTimer

theorem check_processes_events (exited : Nat → Bool) (st : State) :
    (check_processes exited st).events = st.events := rfl

theorem fireTimer_events (exited : Nat → Bool) (st : State) :
    (fireTimer exited st).events = st.events := by
  unfold fireTimer
  split <;> rfl

theorem fireTimerN_events (exited : Nat → Bool) (n : Nat) (st : State) :
    (fireTimerN exited n st).events = st.events := by
  induction n generalizing st with
  | zero => rfl
  | succ n ih =>
    show (fireTimerN exited n (fireTimer exited st)).events = st.events
    rw [ih, fireTimer_events]

theorem run_script_script_path (spawn : String → Except String Nat) (st : State) :
    (run_script spawn st).script_path = st.script_path := by
  unfold run_script
  cases spawn st.script_path <;> rfl

theorem run_script_timer (spawn : String → Except String Nat) (st : State) :
    (run_script spawn st).timer = st.timer := by
  unfold run_script
  cases spawn st.script_path <;> rfl

end ScriptTimer

/-- Claim C1 (code bug): the GUI close-after policy launches exactly once
and arms the member timer with interval d, but that timer is a repeating
timer whose timeout is connected to `check_processes`, which never
terminates the launched process: no matter how often it fires, zero
terminations occur, although the docstring promises the script is closed
after d. The console version behaves as documented: it arms a one-shot
600-second timer whose `stop_script` callback does terminate the launched
process. -/
theorem claim_C1 :
    c1Gui.timer.active = true ∧ c1Gui.timer.interval = 600000 ∧
    launchCount c1Gui.events = 1 ∧
    (∀ exited n, terminateCount (ScriptTimer.fireTimerN exited n c1Gui).events = 0) ∧
    c1Console.timers = [(600, 1)] ∧
    launchCount c1Console.events = 1 ∧
    terminateCount (SimpleScriptTimer.stop_script noTermFail 1 c1Console).events = 1 := by
  refine ⟨rfl, rfl, rfl, ?_, rfl, rfl, rfl⟩
  intro exited n
  rw [ScriptTimer.fireTimerN_events]
  rfl

/-- Claim C2 (code bug): after arming the schedule policy (run once at
13:00, now 12:00) and then calling `stop_all` before it fires, the
anonymous single-shot timer armed through the static `QTimer.singleShot` is
still pending — `stop_all` only stops the two member timers — and when it
fires it still launches the script, although the spec demands zero launches
and zero residual armed timers after `stop()`. -/
theorem claim_C2 :
    c2Stopped.timer.active = false ∧
    c2Stopped.schedule_timer.active = false ∧
    c2Stopped.pendingSingleShots = [3600000] ∧
    launchCount c2Stopped.events = 0 ∧
    launchCount (ScriptTimer.fireSingleShot spawnOk c2Stopped).events = 1 :=
  ⟨rfl, rfl, rfl, rfl, rfl⟩

/-- Claim C3 (code bug): for a scheduled time of 09:00 with the current time
12:00, the GUI computes `time_diff` as `today.msecsTo(QTime(0,0,0)) +
scheduled.msecsSinceStartOfDay()` = -10800000 ms — negative, because
`msecsTo` to midnight of the SAME day is minus the elapsed time, not the
time remaining until tomorrow — so no single-shot timer is armed and the
script never runs, instead of running at 09:00 the next day. The console
version computes the intended 75600-second (21 h) delay. -/
theorem claim_C3 :
    ScriptTimer.schedule_time_diff 32400000 43200000 = -10800000 ∧
    (ScriptTimer.start_schedule_timer
      (ScriptTimer.select_script ScriptTimer.init "/bin/true")
      32400000 43200000 false).pendingSingleShots = [] ∧
    SimpleScriptTimer.start_at_delay 32400 43200 = 75600 := by
  refine ⟨by decide, rfl, by decide⟩

/-- Claim C4 (code bug): the GUI repeat-every policy launches exactly once
and arms the member timer with interval d, but the timer timeout is
connected to `check_processes`, which never launches anything: no matter how
often the timer fires, the launch count stays at 1, although the docstring
promises the script repeats every d. -/
theorem claim_C4 :
    c4Gui.timer.active = true ∧ c4Gui.timer.interval = 1800000 ∧
    launchCount c4Gui.events = 1 ∧
    ∀ exited n, launchCount (ScriptTimer.fireTimerN exited n c4Gui).events = 1 := by
  refine ⟨rfl, rfl, rfl, ?_⟩
  intro exited n
  rw [ScriptTimer.fireTimerN_events]
  rfl

/-- Claim C5 counterexample: the console `select_script` treats the literal
input `cancel` as the abort keyword before checking existence, so even when
a file named `cancel` exists, it is not stored and the previous target is
kept — refuting the claim for the path `cancel`. -/
theorem claim_C5_cex :
    allExists "cancel" = true ∧
    (SimpleScriptTimer.select_script allExists
      { SimpleScriptTimer.init with script_path := "/a" } "cancel").1.script_path = "/a" ∧
    (SimpleScriptTimer.select_script allExists
      { SimpleScriptTimer.init with script_path := "/a" } "cancel").2 = false :=
  ⟨rfl, rfl, rfl⟩

/-- Claim C5 (amended): for every input whose stripped, lowercased form is
not the abort keyword `cancel`, `select_script` on a nonexistent path
reports the not-found error and leaves the whole state — in particular the
previously stored target — unchanged, returning failure; on an existing path
it stores the stripped path and returns success. -/
theorem claim_C5 (pathExists : String → Bool) (st : SimpleScriptTimer.State)
    (input : String) (h : pyLower (pyStrip input) ≠ "cancel") :
    (pathExists (pyStrip input) = false →
      (SimpleScriptTimer.select_script pathExists st input).1 =
        { st with output := st.output ++ ["Error: File not found!"] } ∧
      (SimpleScriptTimer.select_script pathExists st input).2 = false) ∧
    (pathExists (pyStrip input) = true →
      (SimpleScriptTimer.select_script pathExists st input).1.script_path = pyStrip input ∧
      (SimpleScriptTimer.select_script pathExists st input).2 = true) := by
  refine ⟨fun hp => ?_, fun hp => ?_⟩ <;>
    simp [SimpleScriptTimer.select_script, h, hp]

/-- Claim C5 witness: selecting the nonexistent path `/b` leaves the state
unchanged apart from the not-found message and returns failure. -/
theorem claim_C5_witness :
    (SimpleScriptTimer.select_script (fun _ => false) SimpleScriptTimer.init "/b").1 =
      { SimpleScriptTimer.init with
          output := SimpleScriptTimer.init.output ++ ["Error: File not found!"] } ∧
    (SimpleScriptTimer.select_script (fun _ => false) SimpleScriptTimer.init "/b").2 = false :=
  (claim_C5 (fun _ => false) SimpleScriptTimer.init "/b" (by decide)).1 rfl

/-- Claim C6: every start operation, in both versions, refuses to do
anything when no script has been selected: the state is unchanged except
for the warning dialog (GUI) or the printed message (console) — no process
is launched and no timer is armed. -/
theorem claim_C6 (spawn : String → Except String Nat) (st : ScriptTimer.State)
    (minutes scheduled now : Nat) (daily : Bool) (sst : SimpleScriptTimer.State)
    (h : st.script_path = "") (hs : sst.script_path = "") :
    ScriptTimer.start_close_timer spawn st minutes =
      { st with events := st.events ++ [.warned] } ∧
    ScriptTimer.start_repeat_timer spawn st minutes =
      { st with events := st.events ++ [.warned] } ∧
    ScriptTimer.start_schedule_timer st scheduled now daily =
      { st with events := st.events ++ [.warned] } ∧
    SimpleScriptTimer.close_after_time spawn sst minutes =
      { sst with output := sst.output ++ ["No script selected!"] } := by
  refine ⟨?_, ?_, ?_, ?_⟩ <;>
    simp [ScriptTimer.start_close_timer, ScriptTimer.start_repeat_timer,
          ScriptTimer.start_schedule_timer, SimpleScriptTimer.close_after_time, h, hs]

/-- Claim C6 witness: starting any policy on the freshly initialised
scheduler (no target set) only records the warning. -/
theorem claim_C6_witness :
    ScriptTimer.start_close_timer spawnOk ScriptTimer.init 5 =
      { ScriptTimer.init with events := ScriptTimer.init.events ++ [.warned] } ∧
    ScriptTimer.start_repeat_timer spawnOk ScriptTimer.init 5 =
      { ScriptTimer.init with events := ScriptTimer.init.events ++ [.warned] } ∧
    ScriptTimer.start_schedule_timer ScriptTimer.init 46800000 43200000 false =
      { ScriptTimer.init with events := ScriptTimer.init.events ++ [.warned] } ∧
    SimpleScriptTimer.close_after_time spawnOk SimpleScriptTimer.init 5 =
      { SimpleScriptTimer.init with
          output := SimpleScriptTimer.init.output ++ ["No script selected!"] } :=
  claim_C6 spawnOk ScriptTimer.init 5 46800000 43200000 false SimpleScriptTimer.init rfl rfl

/-- Claim C7 counterexample: after arming the schedule policy and pressing
Stop All, the anonymous single-shot timer armed through the static
`QTimer.singleShot` is still pending — `stop_all` does not cancel every
armed timer. -/
theorem claim_C7_cex :
    c7Stopped.status = "All timers stopped" ∧
    c7Stopped.pendingSingleShots = [7200000] :=
  ⟨rfl, rfl⟩

/-- Claim C7 (amended): `stop_all` stops both member timers, attempts to
terminate every tracked process — recording either a successful termination
or a swallowed failure for each, with no exception propagating — and clears
the tracked set regardless of which terminations failed; the anonymous
single-shot timers armed by the schedule policy are, however, left armed. -/
theorem claim_C7 (termFails : Nat → Bool) (st : ScriptTimer.State) :
    (ScriptTimer.stop_all termFails st).running_processes = [] ∧
    (ScriptTimer.stop_all termFails st).timer.active = false ∧
    (ScriptTimer.stop_all termFails st).schedule_timer.active = false ∧
    (∀ p ∈ st.running_processes,
      (if termFails p then Event.termFailSwallowed p else Event.terminated p) ∈
        (ScriptTimer.stop_all termFails st).events) ∧
    (ScriptTimer.stop_all termFails st).pendingSingleShots = st.pendingSingleShots := by
  refine ⟨rfl, rfl, rfl, ?_, rfl⟩
  intro p hp
  simp only [ScriptTimer.stop_all, List.mem_append, List.mem_map]
  exact Or.inr ⟨p, hp, rfl⟩

/-- Claim C7 witness: stopping a scheduler tracking processes 1 and 2, where
terminating every process fails, still clears the tracked set and records a
swallowed failure for each. -/
theorem claim_C7_witness :
    (ScriptTimer.stop_all (fun _ => true)
      { ScriptTimer.init with running_processes := [1, 2] }).running_processes = [] ∧
    (ScriptTimer.stop_all (fun _ => true)
      { ScriptTimer.init with running_processes := [1, 2] }).timer.active = false ∧
    (ScriptTimer.stop_all (fun _ => true)
      { ScriptTimer.init with running_processes := [1, 2] }).schedule_timer.active = false ∧
    (∀ p ∈ ({ ScriptTimer.init with
        running_processes := [1, 2] } : ScriptTimer.State).running_processes,
      (if (fun _ => true) p then Event.termFailSwallowed p else Event.terminated p) ∈
        (ScriptTimer.stop_all (fun _ => true)
          { ScriptTimer.init with running_processes := [1, 2] }).events) ∧
    (ScriptTimer.stop_all (fun _ => true)
      { ScriptTimer.init with running_processes := [1, 2] }).pendingSingleShots =
      ({ ScriptTimer.init with
          running_processes := [1, 2] } : ScriptTimer.State).pendingSingleShots :=
  claim_C7 (fun _ => true) { ScriptTimer.init with running_processes := [1, 2] }

/-- Claim C8: when `subprocess.Popen` raises, `run_script` catches the
exception and the resulting state differs from the previous one only in the
status string reporting the error and the recorded launch-error event — the
tracked list, the timers, the target and everything else are untouched, so
the scheduler remains usable exactly as if the launch had not been
attempted. -/
theorem claim_C8 (spawn : String → Except String Nat) (st : ScriptTimer.State)
    (e : String) (h : spawn st.script_path = .error e) :
    ScriptTimer.run_script spawn st =
      { st with status := "Error running script: " ++ e
                events := st.events ++ [.launchError] } := by
  simp [ScriptTimer.run_script, h]

/-- Claim C8 witness: a launch attempt that raises "No such file or
directory" only updates the status string and records the launch error. -/
theorem claim_C8_witness :
    ScriptTimer.run_script spawnFail ScriptTimer.init =
      { ScriptTimer.init with
          status := "Error running script: " ++ "No such file or directory"
          events := ScriptTimer.init.events ++ [.launchError] } :=
  claim_C8 spawnFail ScriptTimer.init "No such file or directory" rfl

/-- Claim C9 counterexample: starting the close-after policy and then the
schedule policy leaves BOTH armed at once — the member timer is running with
the close interval while a schedule single-shot is pending — over the one
shared tracked-process list, refuting "at most one policy is active at a
time". -/
theorem claim_C9_cex :
    c9Both.timer.active = true ∧ c9Both.timer.interval = 600000 ∧
    c9Both.pendingSingleShots = [21600000] ∧
    c9Both.running_processes = [1] :=
  ⟨rfl, rfl, rfl, rfl⟩

/-- Claim C9 (amended): the close-after and repeat-every policies share the
single member timer, so starting one supersedes the other — after starting
close-after and then repeat-every, the shared timer runs with the repeat
interval only; but the schedule policy arms separate timers and can be
active simultaneously with them. -/
theorem claim_C9 (spawn : String → Except String Nat) (st : ScriptTimer.State)
    (d1 d2 : Nat) (h : ¬ st.script_path = "") :
    (ScriptTimer.start_repeat_timer spawn
      (ScriptTimer.start_close_timer spawn st d1) d2).timer =
      { active := true, interval := d2 * 60000 } := by
  simp [ScriptTimer.start_close_timer, ScriptTimer.start_repeat_timer, h,
        ScriptTimer.run_script_script_path, ScriptTimer.run_script_timer]

/-- Claim C9 witness: starting a 10-minute close timer and then a 30-minute
repeat timer leaves the shared member timer running with the 30-minute
interval. -/
theorem claim_C9_witness :
    (ScriptTimer.start_repeat_timer spawnOk
      (ScriptTimer.start_close_timer spawnOk
        (ScriptTimer.select_script ScriptTimer.init "/bin/sh") 10) 30).timer =
      { active := true, interval := 30 * 60000 } :=
  claim_C9 spawnOk (ScriptTimer.select_script ScriptTimer.init "/bin/sh") 10 30 (by decide)

/-- Claim C10: the console `run_script` appends a process handle to the
tracked list only after `subprocess.Popen` succeeds: a failed launch leaves
the tracked list exactly unchanged and returns `None`, while a successful
one appends exactly the new handle and returns it. -/
theorem claim_C10 (spawn : String → Except String Nat) (st : SimpleScriptTimer.State) :
    (∀ e, spawn st.script_path = .error e →
      (SimpleScriptTimer.run_script spawn st).1.running_processes = st.running_processes ∧
      (SimpleScriptTimer.run_script spawn st).2 = none) ∧
    (∀ pid, spawn st.script_path = .ok pid →
      (SimpleScriptTimer.run_script spawn st).1.running_processes =
        st.running_processes ++ [pid] ∧
      (SimpleScriptTimer.run_script spawn st).2 = some pid) := by
  constructor
  · intro e he
    simp [SimpleScriptTimer.run_script, he]
  · intro pid hp
    simp [SimpleScriptTimer.run_script, hp]

/-- Claim C10 witness: a launch that raises leaves the fresh console state
with its (empty) tracked list unchanged and yields no handle. -/
theorem claim_C10_witness :
    (SimpleScriptTimer.run_script spawnFail SimpleScriptTimer.init).1.running_processes =
      SimpleScriptTimer.init.running_processes ∧
    (SimpleScriptTimer.run_script spawnFail SimpleScriptTimer.init).2 = none :=
  (claim_C10 spawnFail SimpleScriptTimer.init).1 "No such file or directory" rfl

end ScriptTimerSpec
